import Mathlib

/-!
Shallow embedding of `aflow/keywords.py`: the `Keyword` expression-builder
class with its overloaded comparison operators (`__lt__`, `__gt__`,
`__mod__`, `__eq__`), boolean combination (`_generic_combine`, split here
into the `other is self` branch and the distinct-node branch), negation
(`__invert__`), stringification (`__str__`) and the registry `reset`.

Python mutation is modelled by returning the updated record; a raised
exception is an `Except.error` value carrying the exception kind and, for
methods that could have mutated `self`, the state of `self` at the raise
point.  Python `str.replace` / `in` on the single-character patterns the
source uses are modelled by explicit recursion over the character list.
-/

namespace Aflow

/-- Kinds of Python exceptions the embedded methods can raise:
`TypeError` (e.g. a membership test `':' in None`), `AssertionError`
(a failed `assert`), `ValueError` (an explicit `raise ValueError`). -/
inductive PyErr
  | typeError
  | assertError
  | valueError
deriving DecidableEq, Repr

/-- The `Keyword` object of `keywords.py`: `name` (class attribute, `None`
on the base class used for combination results), `state` (list of settled
composite query strings), `cache` (list of pending single comparisons) and
`classes` (set of contributing keyword names, possibly `None`). -/
structure Keyword where
  name : Option String
  state : List String
  cache : List String
  classes : Finset (Option String)
deriving DecidableEq

/-- `Keyword.__init__` with the default `state=None` on a subclass whose
class attribute `name` is `nm`: empty `state`, empty `cache`,
`classes = {self.name}`. -/
def mkKeyword (nm : Option String) : Keyword :=
  { name := nm, state := [], cache := [], classes := {nm} }

/-- How `"{0}".format(self.name)` renders the `name` attribute: the string
itself, or `"None"` for the base class. -/
def fmtName (k : Keyword) : String :=
  match k.name with
  | some n => n
  | none => "None"

/-- A value passed to a comparison operator: either a Python string
(`isinstance(other, string_types)` is true) or any other value, carried by
the text `"{0}".format(other)` renders it to (e.g. `2` renders as `"2"`,
`1.0` as `"1.0"`). -/
inductive Value
  | text (s : String)
  | other (rendered : String)

/-- Python single-character membership `c in s`, on the character list. -/
def containsChar : List Char → Char → Bool
  | [], _ => false
  | a :: rest, c => if a = c then true else containsChar rest c

/-- `c in s` for a string. -/
def pyContainsChar (s : String) (c : Char) : Bool :=
  containsChar s.data c

/-- Python `s.replace(c, r)` for a single-character pattern `c`: every
occurrence of `c` is replaced by `r`. -/
def replaceChar : List Char → Char → List Char → List Char
  | [], _, _ => []
  | a :: rest, c, r =>
      if a = c then r ++ replaceChar rest c r else a :: replaceChar rest c r

/-- `s.replace(c, r)` for strings. -/
def pyReplaceChar (s : String) (c : Char) (r : String) : String :=
  ⟨replaceChar s.data c r.data⟩

namespace Keyword

/-- `Keyword.__str__`: the sole `state` entry if `len(state) == 1`, else
the sole `cache` entry if `len(cache) == 1`, else the `name` attribute. -/
def str (k : Keyword) : Option String :=
  match k.state with
  | [s0] => some s0
  | _ =>
    match k.cache with
    | [c0] => some c0
    | _ => k.name

/-- `Keyword.__lt__`: append `name(*'v')` (text) or `name(*v)` (other) to
`cache`; return the mutated node. -/
def lt (k : Keyword) (v : Value) : Keyword :=
  match v with
  | .text s => { k with cache := k.cache ++ [fmtName k ++ "(*'" ++ s ++ "')"] }
  | .other r => { k with cache := k.cache ++ [fmtName k ++ "(*" ++ r ++ ")"] }

/-- `Keyword.__gt__`: append `name('v'*)` (text) or `name(v*)` (other) to
`cache`; return the mutated node. -/
def gt (k : Keyword) (v : Value) : Keyword :=
  match v with
  | .text s => { k with cache := k.cache ++ [fmtName k ++ "('" ++ s ++ "'*)"] }
  | .other r => { k with cache := k.cache ++ [fmtName k ++ "(" ++ r ++ "*)"] }

/-- `Keyword.__mod__`: `assert isinstance(other, string_types)`, then
append `name(*'v'*)` to `cache`.  A non-text value raises
`AssertionError` before any mutation. -/
def mod (k : Keyword) (v : Value) : Except (PyErr × Keyword) Keyword :=
  match v with
  | .text s => .ok { k with cache := k.cache ++ [fmtName k ++ "(*'" ++ s ++ "'*)"] }
  | .other _ => .error (.assertError, k)

/-- `Keyword.__eq__`: append `name('v')` (text) or `name(v)` (other) to
`cache`; return the mutated node. -/
def eq (k : Keyword) (v : Value) : Keyword :=
  match v with
  | .text s => { k with cache := k.cache ++ [fmtName k ++ "('" ++ s ++ "')"] }
  | .other r => { k with cache := k.cache ++ [fmtName k ++ "(" ++ r ++ ")"] }

/-- `Keyword._generic_combine`, branch `other is self` (the caller chained
the same node instance against itself).  The Python `if/elif` chain:
`len(cache) == 2` appends `cache[0]+token+cache[1]` to `state`;
`len(cache) == 1 and len(state) == 1` replaces `state` with
`[cache[0]+token+"("+state[0]+")"]`; `len(state) == 2` replaces `state`
with `["("+state[0]+")"+token+"("+state[1]+")"]`; anything else raises
`ValueError` (buffers untouched, carried on the error).  On success
`cache` is cleared and the mutated node returned. -/
def selfCombine (k : Keyword) (token : String) : Except (PyErr × Keyword) Keyword :=
  match k.cache, k.state with
  | [c0, c1], st =>
      .ok { k with state := st ++ [c0 ++ token ++ c1], cache := [] }
  | [c0], [s0] =>
      .ok { k with state := [c0 ++ token ++ "(" ++ s0 ++ ")"], cache := [] }
  | _, [s0, s1] =>
      .ok { k with state := ["(" ++ s0 ++ ")" ++ token ++ "(" ++ s1 ++ ")"], cache := [] }
  | _, _ => .error (.valueError, k)

/-- The operand-extraction step of the distinct-node branch of
`_generic_combine`: `state[0]` if `len(state) == 1 and len(cache) == 0`,
else `cache[0]` if `len(state) == 0 and len(cache) == 1`, else `None`. -/
def resolveSide (k : Keyword) : Option String :=
  match k.state, k.cache with
  | [s0], [] => some s0
  | [], [c0] => some c0
  | _, _ => none

/-- The parenthesization step: `if ':' in s or ',' in s: s = "({})"`. -/
def wrapDelims (s : String) : String :=
  if pyContainsChar s ':' || pyContainsChar s ',' then "(" ++ s ++ ")" else s

/-- `Keyword._generic_combine`, distinct-node branch (`other is not self`).
Each side is resolved to a single string; if a side resolves to `None`,
the Python membership test `':' in s` raises `TypeError` before the
`assert s is not None` / `assert o is not None` lines are reached, so
those asserts never fire.  On success a brand-new `Keyword` is built with
`state = [s+token+o]`, empty `cache`, base-class `name = None`, and
`classes` the union of the operands'; the operands are not mutated, and
are returned alongside the fresh node as the post-call values of `self`
and `other`. -/
def crossCombine (a b : Keyword) (token : String) :
    Except PyErr (Keyword × Keyword × Keyword) :=
  match resolveSide a with
  | none => .error .typeError
  | some s =>
    let s := wrapDelims s
    match resolveSide b with
    | none => .error .typeError
    | some o =>
      let o := wrapDelims o
      .ok (a, b,
        { name := none, state := [s ++ token ++ o], cache := [],
          classes := a.classes ∪ b.classes })

/-- The negation rewrite of `__invert__` on one buffered string:
`if '!' in s: s.replace('!', '') else: s.replace('(', "(!")`. -/
def negateStr (s : String) : String :=
  if pyContainsChar s '!' then pyReplaceChar s '!' "" else pyReplaceChar s '(' "(!"

/-- `Keyword.__invert__`: `assert len(state) == 1 or len(cache) == 1`
(raising `AssertionError` with buffers untouched otherwise); then the
`state` entry is rewritten when `len(state) == 1`, else the `cache`
entry. -/
def invert (k : Keyword) : Except (PyErr × Keyword) Keyword :=
  match k.state, k.cache with
  | [s0], _ => .ok { k with state := [negateStr s0] }
  | _, [c0] => .ok { k with cache := [negateStr c0] }
  | _, _ => .error (.assertError, k)

end Keyword

/-- The per-node effect of `reset()`: `cls.state = []; cls.cache = []`
(nothing else is assigned). -/
def resetK (k : Keyword) : Keyword :=
  { k with state := [], cache := [] }

/-- `reset()` over the registry of loaded keyword prototypes, modelled as
an association list from keyword name to prototype node: every registered
node has its `state` and `cache` cleared. -/
def resetAll (reg : List (String × Keyword)) : List (String × Keyword) :=
  reg.map (fun p => (p.1, resetK p.2))

/-- The success payload of a mutating method, if any. -/
def okNode : Except (PyErr × Keyword) Keyword → Option Keyword
  | .ok k => some k
  | .error _ => none

/-- Whether a mutating method raised. -/
def isErr : Except (PyErr × Keyword) Keyword → Bool
  | .ok _ => false
  | .error _ => true

/-- Post-call value of `self` from a successful distinct-node combine. -/
def okFirst : Except PyErr (Keyword × Keyword × Keyword) → Option Keyword
  | .ok (a, _, _) => some a
  | .error _ => none

/-- Post-call value of `other` from a successful distinct-node combine. -/
def okSecond : Except PyErr (Keyword × Keyword × Keyword) → Option Keyword
  | .ok (_, b, _) => some b
  | .error _ => none

/-- The fresh node returned by a successful distinct-node combine. -/
def okThird : Except PyErr (Keyword × Keyword × Keyword) → Option Keyword
  | .ok (_, _, r) => some r
  | .error _ => none

/-- The exception kind of a failed distinct-node combine, if any. -/
def errCross : Except PyErr (Keyword × Keyword × Keyword) → Option PyErr
  | .ok _ => none
  | .error e => some e

/-! Concrete nodes used by the scenario theorems and counterexamples. -/

/-- The `nspecies` prototype after `(nspecies > 2)` then `(nspecies < 5)`
on the same instance: both comparisons sit in `cache`. -/
def nspeciesChain : Keyword :=
  ((mkKeyword (some "nspecies")).gt (.other "2")).lt (.other "5")

/-- The `Egap` prototype after `Egap > 1.0`. -/
def egapNode : Keyword := (mkKeyword (some "Egap")).gt (.other "1.0")

/-- The `Egap_type` prototype after `Egap_type == 'insulator'`. -/
def egapTypeNode : Keyword := (mkKeyword (some "Egap_type")).eq (.text "insulator")

/-- The AND combination of the two distinct nodes above. -/
def egapCross : Except PyErr (Keyword × Keyword × Keyword) :=
  Keyword.crossCombine egapNode egapTypeNode ","

/-- A node holding one settled state entry and two pending comparisons. -/
def c4nodeA : Keyword := ⟨some "x", ["a"], ["b", "c"], {some "x"}⟩

/-- A node holding two settled state entries and two pending comparisons. -/
def c4nodeB : Keyword := ⟨some "x", ["a", "b"], ["c", "d"], {some "x"}⟩

/-- A settled node whose sole entry itself contains the `'!'` marker. -/
def c5node : Keyword := ⟨some "n", ["n('a!')"], [], {some "n"}⟩

/-- A node with one state entry and one cache entry at the same time. -/
def c8node : Keyword := ⟨some "x", ["x(1)"], ["y(2)"], {some "x"}⟩

/-- A one-entry registry whose prototype has dirty buffers. -/
def c9reg : List (String × Keyword) :=
  [("Egap", ⟨some "Egap", ["Egap(1*)"], ["Egap(*2)"], {some "Egap"}⟩)]

/-- The registry entry expected after `reset()`. -/
def c9p : String × Keyword := ("Egap", ⟨some "Egap", [], [], {some "Egap"}⟩)

/-- A resolved node with its string in `state`. -/
def c10a : Keyword := ⟨some "A", ["A(1)"], [], {some "A"}⟩

/-- A resolved node with its string in `cache`. -/
def c10b : Keyword := ⟨some "B", [], ["B(2)"], {some "B"}⟩

/-- The fresh node the combination of the two nodes above constructs. -/
def c10r : Keyword :=
  ⟨none, ["A(1)" ++ "," ++ "B(2)"], [], c10a.classes ∪ c10b.classes⟩

/-! Helper lemmas about the character-level replace used by negation. -/

theorem replaceChar_of_not_mem (l : List Char) (c : Char) (r : List Char)
    (h : containsChar l c = false) : replaceChar l c r = l := by
  induction l with
  | nil => rfl
  | cons a rest ih =>
    by_cases hac : a = c
    · simp [containsChar, hac] at h
    · simp only [containsChar, if_neg hac] at h
      simp [replaceChar, hac, ih h]

theorem replaceChar_bang_restore (l : List Char)
    (h : containsChar l '!' = false) :
    replaceChar (replaceChar l '(' ['(', '!']) '!' [] = l := by
  induction l with
  | nil => rfl
  | cons a rest ih =>
    have ha : ¬ a = '!' := by
      intro hc; simp [containsChar, hc] at h
    have h' : containsChar rest '!' = false := by
      simpa [containsChar, ha] using h
    by_cases hp : a = '('
    · subst hp
      simp [replaceChar, ih h']
    · simp [replaceChar, hp, ha, ih h']

theorem containsChar_paren_of_no_bang (l : List Char)
    (h : containsChar l '!' = false)
    (h2 : containsChar (replaceChar l '(' ['(', '!']) '!' = false) :
    containsChar l '(' = false := by
  induction l with
  | nil => rfl
  | cons a rest ih =>
    have ha : ¬ a = '!' := by
      intro hc; simp [containsChar, hc] at h
    have h' : containsChar rest '!' = false := by
      simpa [containsChar, ha] using h
    by_cases hp : a = '('
    · subst hp
      simp [replaceChar, containsChar] at h2
    · simp only [replaceChar, if_neg hp] at h2
      simp only [containsChar, if_neg hp]
      have h2' : containsChar (replaceChar rest '(' ['(', '!']) '!' = false := by
        simpa [containsChar, ha] using h2
      exact ih h' h2'

/-- Applying the `__invert__` rewrite twice restores any string that does
not already contain the `'!'` marker. -/
theorem negateStr_invol (s : String) (h : pyContainsChar s '!' = false) :
    Keyword.negateStr (Keyword.negateStr s) = s := by
  obtain ⟨l⟩ := s
  have hl : containsChar l '!' = false := h
  have step1 : Keyword.negateStr ⟨l⟩ = ⟨replaceChar l '(' ['(', '!']⟩ := by
    simp [Keyword.negateStr, pyContainsChar, pyReplaceChar, hl]
  rw [step1]
  by_cases hb : containsChar (replaceChar l '(' ['(', '!']) '!' = true
  · have step2 : Keyword.negateStr ⟨replaceChar l '(' ['(', '!']⟩
        = ⟨replaceChar (replaceChar l '(' ['(', '!']) '!' []⟩ := by
      simp [Keyword.negateStr, pyContainsChar, pyReplaceChar, hb]
    rw [step2, replaceChar_bang_restore l hl]
  · have hb' : containsChar (replaceChar l '(' ['(', '!']) '!' = false := by
      simpa using hb
    have hparen : containsChar l '(' = false :=
      containsChar_paren_of_no_bang l hl hb'
    have hfix : replaceChar l '(' ['(', '!'] = l :=
      replaceChar_of_not_mem l '(' _ hparen
    have harg : (⟨replaceChar l '(' ['(', '!']⟩ : String) = ⟨l⟩ :=
      congrArg (fun d => String.mk d) hfix
    rw [harg, step1, harg]

/-- C1: on a field-prototype node with empty `state` and `cache`, the
equals operator with a text value `v` appends exactly one entry to
`cache`, leaves `state` (and `name`, `classes`) untouched, and the node
then stringifies to `field('v')`; with a non-text value it stringifies to
`field(v)`. -/
theorem eq_on_fresh_prototype (k : Keyword) (f v r : String)
    (hn : k.name = some f) (hs : k.state = []) (hc : k.cache = []) :
    (k.eq (.text v)).cache = k.cache ++ [f ++ "('" ++ v ++ "')"] ∧
    (k.eq (.text v)).state = k.state ∧
    (k.eq (.text v)).name = k.name ∧
    (k.eq (.text v)).classes = k.classes ∧
    (k.eq (.text v)).str = some (f ++ "('" ++ v ++ "')") ∧
    (k.eq (.other r)).cache = k.cache ++ [f ++ "(" ++ r ++ ")"] ∧
    (k.eq (.other r)).state = k.state ∧
    (k.eq (.other r)).str = some (f ++ "(" ++ r ++ ")") := by
  rcases k with ⟨n, st, cc, cls⟩
  simp only at hn hs hc
  subst hn hs hc
  refine ⟨rfl, rfl, rfl, rfl, rfl, rfl, rfl, rfl⟩

/-- C1 witness: the theorem at the concrete prototype `Egap_type`, text
value `metal` and rendered numeric value `3`. -/
theorem eq_on_fresh_prototype_witness :
    ((mkKeyword (some "Egap_type")).eq (.text "metal")).cache
      = (mkKeyword (some "Egap_type")).cache ++ ["Egap_type" ++ "('" ++ "metal" ++ "')"] ∧
    ((mkKeyword (some "Egap_type")).eq (.text "metal")).state = (mkKeyword (some "Egap_type")).state ∧
    ((mkKeyword (some "Egap_type")).eq (.text "metal")).name = (mkKeyword (some "Egap_type")).name ∧
    ((mkKeyword (some "Egap_type")).eq (.text "metal")).classes = (mkKeyword (some "Egap_type")).classes ∧
    ((mkKeyword (some "Egap_type")).eq (.text "metal")).str = some ("Egap_type" ++ "('" ++ "metal" ++ "')") ∧
    ((mkKeyword (some "Egap_type")).eq (.other "3")).cache
      = (mkKeyword (some "Egap_type")).cache ++ ["Egap_type" ++ "(" ++ "3" ++ ")"] ∧
    ((mkKeyword (some "Egap_type")).eq (.other "3")).state = (mkKeyword (some "Egap_type")).state ∧
    ((mkKeyword (some "Egap_type")).eq (.other "3")).str = some ("Egap_type" ++ "(" ++ "3" ++ ")") :=
  eq_on_fresh_prototype (mkKeyword (some "Egap_type")) "Egap_type" "metal" "3" rfl rfl rfl

/-- C2: `(nspecies > 2) & (nspecies < 5)` on one instance leaves both
comparisons in `cache` in order; the self-combination with token `,`
succeeds, merges them as `cache[0] + "," + cache[1]` into a single state
entry, clears the cache, and the node stringifies to
`nspecies(2*),nspecies(*5)`. -/
theorem nspecies_and_self_scenario :
    nspeciesChain.cache = ["nspecies(2*)", "nspecies(*5)"] ∧
    "nspecies(2*)" ++ "," ++ "nspecies(*5)" = "nspecies(2*),nspecies(*5)" ∧
    (okNode (nspeciesChain.selfCombine ",")).map Keyword.state
      = some ["nspecies(2*),nspecies(*5)"] ∧
    (okNode (nspeciesChain.selfCombine ",")).map Keyword.cache = some [] ∧
    (okNode (nspeciesChain.selfCombine ",")).map Keyword.str
      = some (some "nspecies(2*),nspecies(*5)") := by
  refine ⟨by decide, by decide, by decide, by decide, by decide⟩

/-- C3: AND-combining the distinct nodes `Egap > 1.0` and
`Egap_type == 'insulator'` yields a fresh node stringifying to
`Egap(1.0*),Egap_type('insulator')` with `classes` the union
`{Egap, Egap_type}` and base-class `name = None`, while both operands
(their `state`, `cache` and `classes`) are unchanged by the call. -/
theorem egap_cross_combine_scenario :
    okFirst egapCross = some egapNode ∧
    okSecond egapCross = some egapTypeNode ∧
    (okThird egapCross).map Keyword.str = some (some "Egap(1.0*),Egap_type('insulator')") ∧
    (okThird egapCross).map Keyword.classes = some (egapNode.classes ∪ egapTypeNode.classes) ∧
    (okThird egapCross).map Keyword.classes = some {some "Egap", some "Egap_type"} ∧
    (okThird egapCross).map Keyword.name = some none ∧
    egapNode.state = [] ∧ egapNode.cache = ["Egap(1.0*)"] ∧
    egapNode.classes = {some "Egap"} ∧
    egapTypeNode.state = [] ∧ egapTypeNode.cache = ["Egap_type('insulator')"] ∧
    egapTypeNode.classes = {some "Egap_type"} := by
  refine ⟨by decide, by decide, by decide, by decide, by decide, by decide,
    by decide, by decide, by decide, by decide, by decide, by decide⟩

/-- C4 counterexample: self-combination can complete without raising yet
leave more than one state entry.  With one settled entry and two pending
comparisons the merge is appended, giving two state entries; with two
settled entries and two pending comparisons the state grows to three
entries, exceeding the claimed bound of two. -/
theorem selfCombine_settled_cex :
    (okNode (c4nodeA.selfCombine ",")).map Keyword.state = some ["a", "b,c"] ∧
    (okNode (c4nodeA.selfCombine ",")).map (fun k => k.state.length) = some 2 ∧
    (okNode (c4nodeB.selfCombine ",")).map (fun k => k.state.length) = some 3 := by
  refine ⟨by decide, by decide, by decide⟩

/-- C4 amended: whenever a self-combination completes without raising, the
cache is empty afterwards and the state grew by at most one entry; the
node holds exactly one state entry provided the state was empty whenever
the cache held two pending comparisons (without that proviso the merge of
a two-entry cache is appended to the existing state, which can therefore
end with two or more entries). -/
theorem selfCombine_settled_amended (k : Keyword) (t : String) (k' : Keyword)
    (h : k.selfCombine t = .ok k') :
    k'.cache = [] ∧ k'.state.length ≤ k.state.length + 1 ∧
    ((k.cache.length = 2 → k.state = []) → k'.state.length = 1) := by
  rcases k with ⟨n, st, cc, cls⟩
  rcases cc with _ | ⟨c0, _ | ⟨c1, _ | ⟨c2, ccr⟩⟩⟩ <;>
    rcases st with _ | ⟨s0, _ | ⟨s1, _ | ⟨s2, str2⟩⟩⟩ <;>
    simp_all [Keyword.selfCombine] <;>
    (try subst h) <;> simp_all

/-- C4 amended witness: the theorem at a node with two pending
comparisons and empty state. -/
theorem selfCombine_settled_amended_witness :
    (⟨some "x", ["p,q"], [], {some "x"}⟩ : Keyword).cache = [] ∧
    (⟨some "x", ["p,q"], [], {some "x"}⟩ : Keyword).state.length
      ≤ (⟨some "x", [], ["p", "q"], {some "x"}⟩ : Keyword).state.length + 1 ∧
    (((⟨some "x", [], ["p", "q"], {some "x"}⟩ : Keyword).cache.length = 2 →
        (⟨some "x", [], ["p", "q"], {some "x"}⟩ : Keyword).state = []) →
      (⟨some "x", ["p,q"], [], {some "x"}⟩ : Keyword).state.length = 1) :=
  selfCombine_settled_amended ⟨some "x", [], ["p", "q"], {some "x"}⟩ ","
    ⟨some "x", ["p,q"], [], {some "x"}⟩ (by rfl)

/-- C5 counterexample: on a node whose sole resolved entry already
contains the `'!'` marker, the first negation strips the marker and the
second re-inserts it after the opening parenthesis, so double negation
does not restore the original stringification. -/
theorem invert_twice_cex :
    c5node.state = ["n('a!')"] ∧ c5node.cache = [] ∧
    c5node.str = some "n('a!')" ∧
    (okNode ((c5node.invert).bind Keyword.invert)).map Keyword.str
      = some (some "n(!'a')") ∧
    ("n(!'a')" : String) ≠ "n('a!')" := by
  refine ⟨by decide, by decide, by decide, by decide, by decide⟩

/-- C5 amended: for every node with exactly one resolved entry (its sole
string in `state` with empty `cache`, or in `cache` with empty `state`)
that does not contain the `'!'` marker, negating twice succeeds and
restores the node's buffers and stringification exactly. -/
theorem invert_twice_amended (k : Keyword) (s : String)
    (h1 : k.state = [s] ∧ k.cache = [] ∨ k.state = [] ∧ k.cache = [s])
    (h2 : pyContainsChar s '!' = false) :
    ∃ k1 k2, k.invert = .ok k1 ∧ k1.invert = .ok k2 ∧
      k2.str = k.str ∧ k2.state = k.state ∧ k2.cache = k.cache ∧
      k2.name = k.name ∧ k2.classes = k.classes := by
  rcases k with ⟨n, st, cc, cls⟩
  rcases h1 with ⟨h1a, h1b⟩ | ⟨h1a, h1b⟩ <;>
    simp only at h1a h1b <;> subst h1a h1b
  · exact ⟨_, _, rfl, rfl, by simp [Keyword.invert, Keyword.str, negateStr_invol s h2],
      by simp [Keyword.invert, negateStr_invol s h2], rfl, rfl, rfl⟩
  · exact ⟨_, _, rfl, rfl, by simp [Keyword.invert, Keyword.str, negateStr_invol s h2],
      rfl, by simp [Keyword.invert, negateStr_invol s h2], rfl, rfl⟩

/-- C5 amended witness: the theorem at a settled node whose entry
`n('a')` carries no marker. -/
theorem invert_twice_amended_witness :
    ∃ k1 k2, (⟨some "n", ["n('a')"], [], {some "n"}⟩ : Keyword).invert = .ok k1 ∧
      k1.invert = .ok k2 ∧
      k2.str = (⟨some "n", ["n('a')"], [], {some "n"}⟩ : Keyword).str ∧
      k2.state = (⟨some "n", ["n('a')"], [], {some "n"}⟩ : Keyword).state ∧
      k2.cache = (⟨some "n", ["n('a')"], [], {some "n"}⟩ : Keyword).cache ∧
      k2.name = (⟨some "n", ["n('a')"], [], {some "n"}⟩ : Keyword).name ∧
      k2.classes = (⟨some "n", ["n('a')"], [], {some "n"}⟩ : Keyword).classes :=
  invert_twice_amended ⟨some "n", ["n('a')"], [], {some "n"}⟩ "n('a')"
    (Or.inl ⟨rfl, rfl⟩) (by decide)

/-- C6 counterexample: combining a fresh (unresolved) prototype with a
distinct node fails, but with a `TypeError` from the membership test
`':' in None`, not with an `AssertionError`: the defensive asserts are
unreachable. -/
theorem cross_unresolved_cex :
    Keyword.resolveSide (mkKeyword (some "Egap")) = none ∧
    errCross (Keyword.crossCombine (mkKeyword (some "Egap"))
        (mkKeyword (some "Egap_type")) ",") = some PyErr.typeError ∧
    PyErr.typeError ≠ PyErr.assertError := by
  refine ⟨by decide, by decide, by decide⟩

/-- C6 amended: cross-node combination with an operand that cannot be
reduced to exactly one resolved string fails — with a `TypeError` raised
by the `':' in s` membership test on the unresolved (`None`) operand; the
defensive `assert` statements that follow are never reached. -/
theorem cross_unresolved_amended (a b : Keyword) (t : String)
    (h : Keyword.resolveSide a = none ∨ Keyword.resolveSide b = none) :
    Keyword.crossCombine a b t = .error .typeError := by
  rcases h with h | h
  · simp [Keyword.crossCombine, h]
  · cases ha : Keyword.resolveSide a <;> simp [Keyword.crossCombine, ha, h]

/-- C6 amended witness: the theorem at two fresh prototypes, the left one
unresolved. -/
theorem cross_unresolved_amended_witness :
    Keyword.crossCombine (mkKeyword (some "nspecies")) (mkKeyword (some "Egap")) ":"
      = .error .typeError :=
  cross_unresolved_amended (mkKeyword (some "nspecies")) (mkKeyword (some "Egap")) ":"
    (Or.inl (by decide))

/-- C7: when the buffer lengths match none of the three valid
self-combination patterns (two cached comparisons; one cached comparison
with one settled entry; two settled entries), self-combination raises
`ValueError` and the node's `state` and `cache` are exactly as they were
before the call. -/
theorem selfCombine_invalid_raises (k : Keyword) (t : String)
    (h2 : k.cache.length ≠ 2)
    (h11 : ¬(k.cache.length = 1 ∧ k.state.length = 1))
    (hs2 : k.state.length ≠ 2) :
    k.selfCombine t = .error (.valueError, k) := by
  rcases k with ⟨n, st, cc, cls⟩
  rcases cc with _ | ⟨c0, _ | ⟨c1, _ | ⟨c2, ccr⟩⟩⟩ <;>
    rcases st with _ | ⟨s0, _ | ⟨s1, _ | ⟨s2, str2⟩⟩⟩ <;>
    simp_all [Keyword.selfCombine]

/-- C7 witness: the theorem at a fresh prototype with empty buffers. -/
theorem selfCombine_invalid_raises_witness :
    Keyword.selfCombine (mkKeyword (some "nspecies")) ","
      = .error (.valueError, mkKeyword (some "nspecies")) :=
  selfCombine_invalid_raises (mkKeyword (some "nspecies")) ","
    (by decide) (by decide) (by decide)

/-- C8 counterexample: a node whose `state` and `cache` each hold one
entry — two entries in total — is accepted by negation, which rewrites
the `state` entry; the claim says negation must fail there. -/
theorem invert_nonsingular_cex :
    c8node.state.length + c8node.cache.length = 2 ∧
    isErr c8node.invert = false ∧
    (okNode c8node.invert).map Keyword.state = some ["x(!1)"] ∧
    (okNode c8node.invert).map Keyword.cache = some ["y(2)"] := by
  refine ⟨by decide, by decide, by decide, by decide⟩

/-- C8 amended: negation raises `AssertionError` (leaving the buffers
untouched) exactly when neither `state` nor `cache` has exactly one
entry; in particular it succeeds when both hold one entry at the same
time (rewriting the `state` entry), and when one buffer holds one entry
while the other holds two. -/
theorem invert_fails_iff (k : Keyword) :
    k.invert = .error (.assertError, k) ↔
      k.state.length ≠ 1 ∧ k.cache.length ≠ 1 := by
  rcases k with ⟨n, st, cc, cls⟩
  rcases st with _ | ⟨s0, _ | ⟨s1, str2⟩⟩ <;>
    rcases cc with _ | ⟨c0, _ | ⟨c1, ccr⟩⟩ <;>
    simp [Keyword.invert]

/-- C9: after `reset()`, every node in the registry has empty `state` and
`cache`, so its stringification falls back to its bare field name; the
per-name list of `classes` sets (and of names) across the registry is
unchanged. -/
theorem reset_clears_all (reg : List (String × Keyword)) (p : String × Keyword)
    (hp : p ∈ resetAll reg) :
    p.2.state = [] ∧ p.2.cache = [] ∧ p.2.str = p.2.name ∧
    (resetAll reg).map (fun q => q.2.classes) = reg.map (fun q => q.2.classes) ∧
    (resetAll reg).map (fun q => q.2.name) = reg.map (fun q => q.2.name) := by
  obtain ⟨q, hq, rfl⟩ := List.mem_map.mp hp
  refine ⟨rfl, rfl, rfl, ?_, ?_⟩ <;> simp [resetAll, resetK]

/-- C9 witness: the theorem at a one-entry registry whose prototype holds
a dirty state and cache. -/
theorem reset_clears_all_witness :
    c9p.2.state = [] ∧ c9p.2.cache = [] ∧ c9p.2.str = c9p.2.name ∧
    (resetAll c9reg).map (fun q => q.2.classes) = c9reg.map (fun q => q.2.classes) ∧
    (resetAll c9reg).map (fun q => q.2.name) = c9reg.map (fun q => q.2.name) :=
  reset_clears_all c9reg c9p (by decide)

/-- C10: every node returned by a successful cross-node combination is
freshly constructed in the settled condition — one state string, empty
cache, base-class `name = None` — so it already resolves to a single
string for any further cross-node combination, and negation accepts
it. -/
theorem crossCombine_fresh_settled (a b : Keyword) (t : String)
    (a' b' r : Keyword)
    (h : Keyword.crossCombine a b t = .ok (a', b', r)) :
    r.state.length = 1 ∧ r.cache = [] ∧ r.name = none ∧
    (Keyword.resolveSide r).isSome = true ∧ isErr r.invert = false := by
  cases ha : Keyword.resolveSide a <;>
    cases hb : Keyword.resolveSide b <;>
    simp [Keyword.crossCombine, ha, hb] at h
  obtain ⟨-, -, rfl⟩ := h
  refine ⟨rfl, rfl, rfl, rfl, rfl⟩

/-- C10 witness: the theorem at two concrete resolved nodes, one holding
its string in `state`, the other in `cache`. -/
theorem crossCombine_fresh_settled_witness :
    c10r.state.length = 1 ∧ c10r.cache = [] ∧ c10r.name = none ∧
    (Keyword.resolveSide c10r).isSome = true ∧ isErr c10r.invert = false :=
  crossCombine_fresh_settled c10a c10b "," c10a c10b c10r rfl

end Aflow
